import Mathlib

/-!
Shallow embedding of the data-cleaning pipeline in `clean_dataset.py`
(Calgary housing & demographics project).

Modelling conventions:
  * A DataFrame cell that originates from `pd.read_csv` is `Option String`
    (`none` models a missing value, pandas `NaN`).
  * Python's `str(...)` coercion of a missing cell yields the literal
    string "nan", as `astype(str)` does on a float `NaN`.
  * Numbers are rationals (`ℚ`); IEEE-754 rounding and infinities are
    outside the model (no property here depends on them).
  * A pipeline that raises (a `MergeError` from `validate="m:1"`, or a
    `ValueError` from `astype(float)`) is modelled as `none`.
-/

namespace Calgary

/-- A Python runtime value, as far as `isinstance(x, str)` can observe it:
a string, the float `NaN` (pandas missing marker), an int, or `None`. -/
inductive PyVal where
  | pstr : String → PyVal
  | pnan : PyVal
  | pint : Int → PyVal
  | pnone : PyVal
deriving DecidableEq

/-- Characters removed by Python's `str.strip()` with no argument. -/
def wsChar (c : Char) : Bool :=
  c == ' ' || c == '\t' || c == '\n' || c == '\r' || c == '\x0b' || c == '\x0c'

/-- Remove leading and trailing whitespace from a character list. -/
def trimList (l : List Char) : List Char :=
  ((l.dropWhile wsChar).reverse.dropWhile wsChar).reverse

/-- Python `str.upper()` (ASCII case mapping). -/
def pyUpper (s : String) : String := String.mk (s.data.map Char.toUpper)

/-- Python `str.lower()` (ASCII case mapping). -/
def pyLower (s : String) : String := String.mk (s.data.map Char.toLower)

/-- Python `str.strip()`. -/
def pyStrip (s : String) : String := String.mk (trimList s.data)

/-- Does `pat` occur contiguously in `s` (as character lists)? -/
def hasSubList : List Char → List Char → Bool
  | s, pat =>
    match s with
    | [] => pat.isEmpty
    | _ :: rest => pat.isPrefixOf s || hasSubList rest pat

/-- Python's substring test `pat in s` (on strings): true when `pat`
occurs contiguously in `s`; the empty pattern is contained in anything. -/
def strContains (s pat : String) : Bool :=
  hasSubList s.data pat.data

/-- The exact-match inner-city structure labels of `map_inner_city`. -/
def innerCityStructures : List String :=
  ["INNER CITY", "CENTRE CITY", "INNER-CITY", "CENTER CITY", "DOWNTOWN"]

/-- The substring-matched pre-1980s decade tokens of `map_inner_city`. -/
def innerCityDecades : List String :=
  ["PRE 1910", "PRE-1910", "BEFORE 1910", "1910S", "1920S", "1930S",
   "1940S", "1950S", "1960S", "1970S", "1960S/1970S", "1960/1970",
   "1960-1970"]

/-- The substring-matched suburban tokens of `map_inner_city`. -/
def suburbanStructures : List String :=
  ["BUILDING OUT", "BUILDOUT", "BUILD OUT", "DEVELOPING", "FUTURE",
   "1980S", "1990S", "2000S", "2010S", "2020S", "NEW", "GREENFIELD"]

/-- Function `map_inner_city` from `clean_dataset.py`: non-strings default to
"Suburban"; otherwise upper-case and strip, try an exact match against the
inner-city structures, then a substring match against the decade tokens,
then a substring match against the suburban tokens, defaulting to
"Suburban". -/
def map_inner_city : PyVal → String
  | PyVal.pstr v =>
      let st := pyStrip (pyUpper v)
      if innerCityStructures.contains st then "Inner-City"
      else if innerCityDecades.any (fun d => strContains st d) then "Inner-City"
      else if suburbanStructures.any (fun d => strContains st d) then "Suburban"
      else "Suburban"
  | _ => "Suburban"


/-- A DataFrame cell loaded from CSV: a string, or missing (`NaN`). -/
abbrev Cell := Option String

/-- Python `str(...)` applied to a cell, as `.astype(str)` does: a missing
value (float `NaN`) prints as the string "nan". -/
def cellStr : Cell → String
  | none => "nan"
  | some s => s

/-- A cell as seen by `isinstance(x, str)`: a missing value is float `NaN`. -/
def pyOfCell : Cell → PyVal
  | none => PyVal.pnan
  | some s => PyVal.pstr s

/-- The `clean_names` column operation: `astype(str).str.upper().str.strip()`. -/
def cleanName (c : Cell) : String := pyStrip (pyUpper (cellStr c))

/-- The `.str.replace(",", "", regex=False)` step: delete every comma. -/
def stripCommas (s : String) : String :=
  String.mk (s.data.filter (fun c => !(c == ',')))

/-- Outcome of Python `float(s)`: a finite number, the float `NaN`
(when the text reads "nan"), or a raised `ValueError`. -/
inductive FloatParse where
  | num : ℚ → FloatParse
  | nan : FloatParse
  | err : FloatParse
deriving DecidableEq

/-- Numeric value of a digit string (most significant first). -/
def digitsToNat (l : List Char) : Nat :=
  l.foldl (fun a c => a * 10 + (c.toNat - 48)) 0

/-- Parse a non-empty all-digit character list. -/
def parseNatDigits (l : List Char) : Option Nat :=
  if l ≠ [] ∧ l.all (fun c => c.isDigit) then some (digitsToNat l) else none

/-- Split a character list at every occurrence of `sep` (like
`str.split(sep)` on a single-character separator): always non-empty. -/
def splitOnChar (sep : Char) : List Char → List (List Char)
  | [] => [[]]
  | c :: cs =>
      let r := splitOnChar sep cs
      if c == sep then [] :: r
      else
        match r with
        | [] => [[c]]
        | h :: t => (c :: h) :: t

/-- Parse an unsigned decimal mantissa (`digits`, `digits.digits`,
`digits.`, `.digits`; at least one digit in total) into `(n, sc)` with
value `n / 10 ^ sc`. -/
def parseMantissaParts (l : List Char) : Option (Nat × Nat) :=
  match splitOnChar '.' l with
  | [a] => (parseNatDigits a).map (fun n => (n, 0))
  | [a, b] =>
      if a ++ b ≠ [] ∧ a.all (fun c => c.isDigit) ∧ b.all (fun c => c.isDigit) then
        some (digitsToNat (a ++ b), b.length)
      else none
  | _ => none

/-- Parse a mantissa with an optional leading sign; the flag records a
leading minus. -/
def parseSignedMantissa (l : List Char) : Option (Bool × Nat × Nat) :=
  match l with
  | '+' :: rest => (parseMantissaParts rest).map (fun p => (false, p))
  | '-' :: rest => (parseMantissaParts rest).map (fun p => (true, p))
  | _ => (parseMantissaParts l).map (fun p => (false, p))

/-- Parse a signed integer exponent. -/
def parseExpPart (l : List Char) : Option Int :=
  match l with
  | '+' :: rest => (parseNatDigits rest).map (fun n => (n : Int))
  | '-' :: rest => (parseNatDigits rest).map (fun n => -(n : Int))
  | _ => (parseNatDigits l).map (fun n => (n : Int))

/-- The rational value `±n * 10 ^ ev / 10 ^ sc` of a parsed literal,
assembled with integer arithmetic and a single `Rat.divInt`. -/
def ratOfParts (neg : Bool) (n : Nat) (sc : Nat) (ev : Int) : ℚ :=
  let mag : Nat := n * 10 ^ ev.toNat
  let den : Nat := 10 ^ sc * 10 ^ (-ev).toNat
  let num : Int := if neg then -(mag : Int) else (mag : Int)
  Rat.divInt num (den : Int)

/-- Parse a finite decimal literal (already lower-cased, no surrounding
whitespace): signed mantissa with an optional `e`-exponent. -/
def parseDecimalCore (t : List Char) : Option ℚ :=
  match splitOnChar 'e' t with
  | [m] => (parseSignedMantissa m).map (fun p => ratOfParts p.1 p.2.1 p.2.2 0)
  | [m, e] =>
      match parseSignedMantissa m, parseExpPart e with
      | some p, some ev => some (ratOfParts p.1 p.2.1 p.2.2 ev)
      | _, _ => none
  | _ => none

/-- Python `float(s)`: strip surrounding whitespace, accept "nan" (any
case, optionally signed) as `NaN`, otherwise parse a decimal literal or
raise. IEEE infinities are outside the rational model; no property here
depends on them. -/
def pyFloat (s : String) : FloatParse :=
  let t := (trimList s.data).map Char.toLower
  let body := match t with
    | '+' :: r => r
    | '-' :: r => r
    | _ => t
  if body = ['n', 'a', 'n'] then FloatParse.nan
  else match parseDecimalCore t with
    | some q => FloatParse.num q
    | none => FloatParse.err

/-- The per-cell numeric coercion of `load_and_prepare_data`:
`astype(str).str.replace(",", "").astype(float).fillna(0)`. A missing cell
prints as "nan", parses to `NaN`, and is filled with 0; an unparsable
string raises (`none`). -/
def coerceCell (v : Cell) : Option ℚ :=
  match pyFloat (stripCommas (cellStr v)) with
  | FloatParse.num q => some q
  | FloatParse.nan => some 0
  | FloatParse.err => none


/-! Table model: the three sources after the column renames of
`load_and_prepare_data` (`CENSUS_YEAR → YEAR`, `COMMUNITY →
COMMUNITY_NAME`, `RESIDENT_CNT → RES_CNT`, `DWELLING_CNT →
DWELLINGS_TOTAL`, `VACANT_DWELLING_CNT → DWELLINGS_VACANT`; `NAME →
COMMUNITY_NAME`, `sector → SECTOR`; `date → YEAR`, `Community name →
COMMUNITY_NAME`, median column → `MEDIAN_ASSESSMENT`). Census and
assessment are modelled without SECTOR/AREA_TYPE columns: the code drops
any such columns from them before merging, so they never reach the
output. The ward table is modelled in the branch the data exercises: no
pre-existing AREA_TYPE column and a COMM_STRUCTURE column present, so
AREA_TYPE is synthesized with `map_inner_city`. -/

/-- A census row after renaming. -/
structure CensusRow where
  year : Int
  community : Cell
  res_cnt : Cell
  dwellings_total : Cell
  dwellings_vacant : Cell
deriving DecidableEq

/-- An assessment row after renaming. -/
structure AssessRow where
  year : Int
  community : Cell
  median_assessment : Cell
deriving DecidableEq

/-- A ward row after renaming. -/
structure WardRow where
  community : Cell
  sector : Cell
  comm_structure : Cell
deriving DecidableEq

/-- A census row after `clean_names` on COMMUNITY_NAME. -/
structure CensusRowC where
  name : String
  year : Int
  res_cnt : Cell
  dwellings_total : Cell
  dwellings_vacant : Cell
deriving DecidableEq

/-- An assessment row after `clean_names` on COMMUNITY_NAME. -/
structure AssessRowC where
  name : String
  year : Int
  median_assessment : Cell
deriving DecidableEq

/-- A ward row after AREA_TYPE synthesis and `clean_names`. -/
structure WardRowC where
  name : String
  sector : Cell
  comm_structure : Cell
  area_type : String
deriving DecidableEq

/-- The years of interest, `YEARS = (2016, 2017)`. -/
def YEARS : List Int := [2016, 2017]

/-- The sentinel community name removed from all three tables. -/
def EXCLUDE_NAME : String := "SYSTEM/UNCLASSIFIED/RESIDUAL WARD"

/-- Clean one census row (`clean_names(census, COL_NAME)`). -/
def cleanCensusRow (r : CensusRow) : CensusRowC :=
  { name := cleanName r.community, year := r.year, res_cnt := r.res_cnt,
    dwellings_total := r.dwellings_total, dwellings_vacant := r.dwellings_vacant }

/-- Clean one assessment row (`clean_names(assess, COL_NAME)`). -/
def cleanAssessRow (r : AssessRow) : AssessRowC :=
  { name := cleanName r.community, year := r.year,
    median_assessment := r.median_assessment }

/-- Add AREA_TYPE from COMM_STRUCTURE, then clean the name column. -/
def cleanWardRow (r : WardRow) : WardRowC :=
  { name := cleanName r.community, sector := r.sector,
    comm_structure := r.comm_structure,
    area_type := map_inner_city (pyOfCell r.comm_structure) }

/-- Census processing before the merge: filter to `YEARS`, clean the
name column, drop sentinel rows. -/
def processCensus (census : List CensusRow) : List CensusRowC :=
  ((census.filter (fun r => YEARS.contains r.year)).map cleanCensusRow).filter
    (fun r => !(r.name == EXCLUDE_NAME))

/-- Assessment rows after the year filter and name cleaning, before
deduplication (the order-sensitive input of `drop_duplicates`). -/
def assessPrepared (assess : List AssessRow) : List AssessRowC :=
  (assess.filter (fun r => YEARS.contains r.year)).map cleanAssessRow

/-- Pandas `drop_duplicates(subset=[COL_NAME, "YEAR"], keep="first")`: keep a
row only when its (name, year) key has not been seen earlier. -/
def dedupAssess (seen : List (String × Int)) : List AssessRowC → List AssessRowC
  | [] => []
  | r :: rs =>
      if (r.name, r.year) ∈ seen then dedupAssess seen rs
      else r :: dedupAssess ((r.name, r.year) :: seen) rs

/-- Assessment processing before the merge: year filter, name cleaning,
first-occurrence deduplication, sentinel removal. -/
def processAssess (assess : List AssessRow) : List AssessRowC :=
  (dedupAssess [] (assessPrepared assess)).filter
    (fun r => !(r.name == EXCLUDE_NAME))

/-- Ward processing before the merge: AREA_TYPE synthesis, name
cleaning, sentinel removal (the ward table is not year-filtered). -/
def processWard (ward : List WardRow) : List WardRowC :=
  (ward.map cleanWardRow).filter (fun r => !(r.name == EXCLUDE_NAME))

/-- The key predicate of the census-ward left join (`on=COL_NAME`). -/
def nameMatch (n : String) (w : WardRowC) : Bool := w.name == n

/-- The key predicate of the (census⋈ward)-assessment left join
(`on=[COL_NAME, "YEAR"]`). -/
def keyMatch (n : String) (y : Int) (a : AssessRowC) : Bool :=
  a.name == n && a.year == y

/-- A row of the merged DataFrame before the numeric coercions;
`area_type` is `none` exactly when the ward left join found no match. -/
structure MergedRow where
  name : String
  year : Int
  res_cnt : Cell
  dwellings_total : Cell
  dwellings_vacant : Cell
  sector : Cell
  comm_structure : Cell
  area_type : Option String
  median_assessment : Cell
deriving DecidableEq

/-- Build one merged row from a census row and the (unique, validated)
ward and assessment matches of the two left joins; an unmatched right
side contributes missing values. -/
def joinRow (c : CensusRowC) (ow : Option WardRowC) (oa : Option AssessRowC) :
    MergedRow :=
  { name := c.name, year := c.year, res_cnt := c.res_cnt,
    dwellings_total := c.dwellings_total, dwellings_vacant := c.dwellings_vacant,
    sector := ow.bind (fun w => w.sector),
    comm_structure := ow.bind (fun w => w.comm_structure),
    area_type := ow.map (fun w => w.area_type),
    median_assessment := oa.bind (fun a => a.median_assessment) }

/-- Both left joins at once: census drives the output (one merged row
per census row, pandas `how="left"` keeping left order). -/
def mergeRows (cs : List CensusRowC) (ws : List WardRowC)
    (ass : List AssessRowC) : List MergedRow :=
  cs.map (fun c =>
    joinRow c (ws.find? (nameMatch c.name)) (ass.find? (keyMatch c.name c.year)))

/-- A merged row after the four numeric coercions. -/
structure CoercedRow where
  name : String
  year : Int
  res_cnt : ℚ
  dwellings_total : ℚ
  dwellings_vacant : ℚ
  sector : Cell
  comm_structure : Cell
  area_type : Option String
  median_assessment : ℚ
deriving DecidableEq

/-- Coerce the four numeric columns of one merged row; `none` models the
`ValueError` that `astype(float)` raises on an unparsable cell. -/
def coerceRow (m : MergedRow) : Option CoercedRow :=
  match coerceCell m.median_assessment, coerceCell m.res_cnt,
      coerceCell m.dwellings_vacant, coerceCell m.dwellings_total with
  | some med, some res, some vac, some tot =>
      some { name := m.name, year := m.year, res_cnt := res,
             dwellings_total := tot, dwellings_vacant := vac,
             sector := m.sector, comm_structure := m.comm_structure,
             area_type := m.area_type, median_assessment := med }
  | _, _, _, _ => none

/-- Coerce every merged row; any raising cell aborts the run. -/
def coerceAll : List MergedRow → Option (List CoercedRow)
  | [] => some []
  | m :: ms =>
      match coerceRow m, coerceAll ms with
      | some c, some cs => some (c :: cs)
      | _, _ => none

/-- Exact rational division written with explicit cross-multiplication
and one `Rat.divInt`, so that concrete runs compute inside the kernel;
`pdDiv_eq_div` proves it equal to `ℚ` division (both send a zero divisor
to 0, though the pipeline never divides by zero: `replace(0, pd.NA)`
turns a zero divisor into a missing value first). -/
def pdDiv (a b : ℚ) : ℚ := Rat.divInt (a.num * b.den) (b.num * a.den)


/-- A row of the final DataFrame, with the two derived metric columns. -/
structure OutRow where
  name : String
  year : Int
  res_cnt : ℚ
  dwellings_total : ℚ
  dwellings_vacant : ℚ
  sector : Cell
  comm_structure : Cell
  area_type : Option String
  median_assessment : ℚ
  assessment_per_person : Option ℚ
  vacancy_rate : Option ℚ
deriving DecidableEq

/-- Append the two derived columns:
`ASSESSMENT_PER_PERSON = MEDIAN_ASSESSMENT / RES_CNT.replace(0, pd.NA)`
and `VACANCY_RATE = DWELLINGS_VACANT / DWELLINGS_TOTAL.replace(0, pd.NA)`;
a zero denominator becomes missing, and dividing by a missing value gives
a missing value. -/
def deriveMetrics (c : CoercedRow) : OutRow :=
  { name := c.name, year := c.year, res_cnt := c.res_cnt,
    dwellings_total := c.dwellings_total, dwellings_vacant := c.dwellings_vacant,
    sector := c.sector, comm_structure := c.comm_structure,
    area_type := c.area_type, median_assessment := c.median_assessment,
    assessment_per_person :=
      if c.res_cnt = 0 then none else some (pdDiv c.median_assessment c.res_cnt),
    vacancy_rate :=
      if c.dwellings_total = 0 then none
      else some (pdDiv c.dwellings_vacant c.dwellings_total) }

/-- Strict lexicographic comparison of character lists (code-point
order, as Python compares strings). -/
def charListLt : List Char → List Char → Bool
  | [], [] => false
  | [], _ :: _ => true
  | _ :: _, [] => false
  | a :: as, b :: bs =>
      Nat.blt a.toNat b.toNat || (a == b && charListLt as bs)

/-- Strict lexicographic comparison of strings. -/
def strLtB (a b : String) : Bool := charListLt a.data b.data

/-- The sort order of `sort_index()` on the (COMMUNITY_NAME, YEAR)
multi-index. -/
def rowLE (a b : OutRow) : Prop :=
  strLtB a.name b.name = true ∨ (a.name = b.name ∧ a.year ≤ b.year)

instance : DecidableRel rowLE := fun a b =>
  inferInstanceAs (Decidable
    (strLtB a.name b.name = true ∨ (a.name = b.name ∧ a.year ≤ b.year)))

/-- Pandas `set_index([COL_NAME, "YEAR"])` followed by `sort_index()`. -/
def sortRows (l : List OutRow) : List OutRow := l.insertionSort rowLE

/-- Function `load_and_prepare_data` from `clean_dataset.py` over the renamed
tables: process the three sources, left-join census with ward on the
name (validated many-to-one) and the result with assessment on (name,
year) (validated many-to-one), coerce the four numeric columns, derive
the two metrics, and sort by the composite key. `none` models a raised
exception (a failed `validate="m:1"` or a `ValueError` in
`astype(float)`). -/
def load_and_prepare_data (census : List CensusRow) (assess : List AssessRow)
    (ward : List WardRow) : Option (List OutRow) :=
  let cs := processCensus census
  let ass := processAssess assess
  let ws := processWard ward
  if (ws.map (fun w => w.name)).Nodup then
    if (ass.map (fun a => (a.name, a.year))).Nodup then
      match coerceAll (mergeRows cs ws ass) with
      | some rows => some (sortRows (rows.map deriveMetrics))
      | none => none
    else none
  else none

/-! Concrete tables used by witnesses and counterexamples. -/

/-- A census table that repeats one (community, year) key. -/
def dupCensus : List CensusRow :=
  [{ year := 2016, community := some "Abc", res_cnt := some "3",
     dwellings_total := some "0", dwellings_vacant := some "0" },
   { year := 2016, community := some "Abc", res_cnt := some "3",
     dwellings_total := some "0", dwellings_vacant := some "0" }]

/-- A one-row census table whose community matches no ward row. -/
def orphanCensus : List CensusRow :=
  [{ year := 2016, community := some "Orphan Glen", res_cnt := some "2",
     dwellings_total := some "1", dwellings_vacant := some "0" }]

/-- A census table with an unparsable numeric cell. -/
def badCensus : List CensusRow :=
  [{ year := 2016, community := some "Weird Row", res_cnt := some "abc",
     dwellings_total := some "1", dwellings_vacant := some "0" }]

/-- A one-row census table with distinct keys. -/
def oneCensus : List CensusRow :=
  [{ year := 2017, community := some "Beta Hills", res_cnt := some "4",
     dwellings_total := some "2", dwellings_vacant := some "1" }]

/-- The single output record of a run on `oneCensus` with empty ward
and assessment tables. -/
def oneOutRow : OutRow :=
  { name := "BETA HILLS", year := 2017, res_cnt := 4, dwellings_total := 2,
    dwellings_vacant := 1, sector := none, comm_structure := none,
    area_type := none, median_assessment := 0,
    assessment_per_person := some 0, vacancy_rate := some (Rat.divInt 1 2) }

/-- The output of a run on `oneCensus` with empty ward and assessment
tables. -/
def oneOut : List OutRow := [oneOutRow]

/-- Census table for the first-occurrence-kept example. -/
def abcCensus : List CensusRow :=
  [{ year := 2017, community := some "ABC", res_cnt := some "1",
     dwellings_total := some "1", dwellings_vacant := some "0" }]

/-- Assessment table with two rows for ("ABC", 2017), values 500000 then
510000 in source order. -/
def abcAssess : List AssessRow :=
  [{ year := 2017, community := some "ABC", median_assessment := some "500000" },
   { year := 2017, community := some "ABC", median_assessment := some "510000" }]

/-- The ABC/2017 output record: it carries the first assessment, 500000. -/
def abcOut : OutRow :=
  { name := "ABC", year := 2017, res_cnt := 1, dwellings_total := 1,
    dwellings_vacant := 0, sector := none, comm_structure := none,
    area_type := none, median_assessment := 500000,
    assessment_per_person := some 500000, vacancy_rate := some 0 }

/-- A census table containing a sentinel row next to a real one. -/
def sentCensus : List CensusRow :=
  [{ year := 2016, community := some "Real Place", res_cnt := some "1",
     dwellings_total := some "1", dwellings_vacant := some "0" },
   { year := 2016, community := some "System/Unclassified/Residual Ward",
     res_cnt := some "9", dwellings_total := some "9",
     dwellings_vacant := some "9" }]

/-- The single output record of a run on `sentCensus`: the sentinel row
is gone. -/
def sentOut : OutRow :=
  { name := "REAL PLACE", year := 2016, res_cnt := 1, dwellings_total := 1,
    dwellings_vacant := 0, sector := none, comm_structure := none,
    area_type := none, median_assessment := 0,
    assessment_per_person := some 0, vacancy_rate := some 0 }

/-- A census row whose community name is missing. -/
def nullNameCensusRow : CensusRow :=
  { year := 2016, community := none, res_cnt := some "1",
    dwellings_total := some "1", dwellings_vacant := some "0" }

/-- Helper: the classifier only ever returns one of the two labels. -/
theorem mapInnerCity_mem (v : PyVal) :
    map_inner_city v = "Inner-City" ∨ map_inner_city v = "Suburban" := by
  cases v with
  | pstr s =>
      simp only [map_inner_city]
      split
      · exact Or.inl rfl
      split
      · exact Or.inl rfl
      split
      · exact Or.inr rfl
      · exact Or.inr rfl
  | pnan => exact Or.inr rfl
  | pint n => exact Or.inr rfl
  | pnone => exact Or.inr rfl

/-- The explicit division agrees with `ℚ` division. -/
theorem pdDiv_eq_div (a b : ℚ) : pdDiv a b = a / b := by
  unfold pdDiv
  rw [Rat.divInt_eq_div]
  rcases eq_or_ne b 0 with hb | hb
  · subst hb
    simp
  · have hbn : (b.num : ℚ) ≠ 0 := by
      exact_mod_cast Rat.num_ne_zero.mpr hb
    have had : (a.den : ℚ) ≠ 0 := by
      exact_mod_cast a.den_nz
    have hbd : (b.den : ℚ) ≠ 0 := by
      exact_mod_cast b.den_nz
    have ha' := Rat.num_div_den a
    have hb' := Rat.num_div_den b
    rw [div_eq_iff had] at ha'
    rw [div_eq_iff hbd] at hb'
    push_cast
    rw [div_eq_div_iff (mul_ne_zero hbn had) hb, ha', hb']
    ring

example : coerceCell none = some 0 := by decide
example : coerceCell (some "1,234") = some 1234 := by decide
example : coerceCell (some "abc") = none := by decide
example : coerceCell (some "2.5") = some (Rat.divInt 5 2) := by decide
example : coerceCell (some "-3e2") = some (-300) := by decide
example : coerceCell (some " NaN ") = some 0 := by decide
example : coerceCell (some ".5") = some (Rat.divInt 1 2) := by decide
example : coerceCell (some "") = none := by decide

/-! Helper lemmas about the pipeline stages. -/

/-- Unfolding `keyMatch` into propositional equalities. -/
theorem keyMatch_iff {n : String} {y : Int} {a : AssessRowC} :
    keyMatch n y a = true ↔ a.name = n ∧ a.year = y := by
  unfold keyMatch
  simp

/-- A successful per-row coercion fixes the carried-over columns and
relates the four numeric columns to `coerceCell`. -/
theorem coerceRow_spec {m : MergedRow} {c : CoercedRow}
    (h : coerceRow m = some c) :
    c.name = m.name ∧ c.year = m.year ∧ c.area_type = m.area_type ∧
    coerceCell m.median_assessment = some c.median_assessment ∧
    coerceCell m.res_cnt = some c.res_cnt ∧
    coerceCell m.dwellings_vacant = some c.dwellings_vacant ∧
    coerceCell m.dwellings_total = some c.dwellings_total := by
  unfold coerceRow at h
  split at h
  · injection h with h'
    subst h'
    simp_all
  · exact Option.noConfusion h

/-- Every coerced row comes from some merged row. -/
theorem coerceAll_mem :
    ∀ {ms : List MergedRow} {cs : List CoercedRow},
      coerceAll ms = some cs → ∀ c ∈ cs, ∃ m ∈ ms, coerceRow m = some c := by
  intro ms
  induction ms with
  | nil =>
      intro cs h c hc
      simp only [coerceAll, Option.some.injEq] at h
      subst h
      simp at hc
  | cons m ms ih =>
      intro cs h c hc
      unfold coerceAll at h
      cases hm : coerceRow m with
      | none => rw [hm] at h; exact Option.noConfusion h
      | some c0 =>
          cases hms : coerceAll ms with
          | none => rw [hm, hms] at h; exact Option.noConfusion h
          | some cs0 =>
              rw [hm, hms] at h
              injection h with h'
              subst h'
              rcases List.mem_cons.mp hc with rfl | hc'
              · exact ⟨m, List.mem_cons_self m ms, hm⟩
              · rcases ih hms c hc' with ⟨m', hm', hcr⟩
                exact ⟨m', List.mem_cons_of_mem m hm', hcr⟩

/-- Coercion preserves the (name, year) key column pointwise. -/
theorem coerceAll_keys :
    ∀ {ms : List MergedRow} {cs : List CoercedRow},
      coerceAll ms = some cs →
      cs.map (fun c => (c.name, c.year)) = ms.map (fun m => (m.name, m.year)) := by
  intro ms
  induction ms with
  | nil =>
      intro cs h
      simp only [coerceAll, Option.some.injEq] at h
      subst h
      rfl
  | cons m ms ih =>
      intro cs h
      unfold coerceAll at h
      cases hm : coerceRow m with
      | none => rw [hm] at h; exact Option.noConfusion h
      | some c0 =>
          cases hms : coerceAll ms with
          | none => rw [hm, hms] at h; exact Option.noConfusion h
          | some cs0 =>
              rw [hm, hms] at h
              injection h with h'
              subst h'
              rcases coerceRow_spec hm with ⟨hn, hy, -⟩
              simp only [List.map_cons, ih hms, hn, hy]

/-- The merged rows carry the census key column unchanged. -/
theorem mergeRows_keys (cs : List CensusRowC) (ws : List WardRowC)
    (ass : List AssessRowC) :
    (mergeRows cs ws ass).map (fun m => (m.name, m.year)) =
      cs.map (fun c => (c.name, c.year)) := by
  unfold mergeRows
  rw [List.map_map]
  rfl

/-- Every output row of a successful run is the metric derivation of a
coerced join of a processed census row with its two `find?` matches. -/
theorem out_mem_spec {census : List CensusRow} {assess : List AssessRow}
    {ward : List WardRow} {out : List OutRow} {r : OutRow}
    (h : load_and_prepare_data census assess ward = some out) (hr : r ∈ out) :
    ∃ c ∈ processCensus census, ∃ cr,
      coerceRow (joinRow c ((processWard ward).find? (nameMatch c.name))
          ((processAssess assess).find? (keyMatch c.name c.year))) = some cr ∧
      r = deriveMetrics cr := by
  simp only [load_and_prepare_data] at h
  split at h
  · split at h
    · cases hca : coerceAll (mergeRows (processCensus census) (processWard ward)
          (processAssess assess)) with
      | none => rw [hca] at h; exact Option.noConfusion h
      | some rows =>
          rw [hca] at h
          injection h with h'
          have hr' : r ∈ rows.map deriveMetrics := by
            have hperm := List.perm_insertionSort rowLE (rows.map deriveMetrics)
            rw [← h'] at hr
            exact hperm.mem_iff.mp hr
          rcases List.mem_map.mp hr' with ⟨cr, hcr, rfl⟩
          rcases coerceAll_mem hca cr hcr with ⟨m, hm, hrm⟩
          rcases List.mem_map.mp hm with ⟨c, hc, rfl⟩
          exact ⟨c, hc, cr, hrm, rfl⟩
    · exact Option.noConfusion h
  · exact Option.noConfusion h

/-- Filtering with a predicate that every sought row satisfies does not
change the result of `find?`. -/
theorem find?_filter_pred {α : Type} {p q : α → Bool} (l : List α)
    (himp : ∀ a, p a = true → q a = true) :
    (l.filter q).find? p = l.find? p := by
  induction l with
  | nil => rfl
  | cons a l ih =>
      rw [List.filter_cons]
      by_cases hq : q a = true
      · rw [if_pos hq]
        by_cases hp : p a = true
        · rw [List.find?_cons_of_pos _ hp, List.find?_cons_of_pos _ hp]
        · rw [List.find?_cons_of_neg _ hp, List.find?_cons_of_neg _ hp, ih]
      · have hp : ¬ p a = true := fun h => hq (himp a h)
        rw [if_neg hq, List.find?_cons_of_neg _ hp, ih]

/-- First-occurrence deduplication does not change the result of a
keyed `find?`, as long as the sought key was not already consumed. -/
theorem find?_dedupAssess (n : String) (y : Int) :
    ∀ (l : List AssessRowC) (seen : List (String × Int)), (n, y) ∉ seen →
      (dedupAssess seen l).find? (keyMatch n y) = l.find? (keyMatch n y) := by
  intro l
  induction l with
  | nil => intro seen _; rfl
  | cons r rs ih =>
      intro seen hns
      unfold dedupAssess
      by_cases hmem : (r.name, r.year) ∈ seen
      · rw [if_pos hmem]
        have hkm : ¬ keyMatch n y r = true := by
          intro hk
          rcases keyMatch_iff.mp hk with ⟨h1, h2⟩
          exact hns (h1 ▸ h2 ▸ hmem)
        rw [ih seen hns, List.find?_cons_of_neg _ hkm]
      · rw [if_neg hmem]
        by_cases hk : keyMatch n y r = true
        · rw [List.find?_cons_of_pos _ hk, List.find?_cons_of_pos _ hk]
        · rw [List.find?_cons_of_neg _ hk, List.find?_cons_of_neg _ hk]
          apply ih
          intro hmem'
          rcases List.mem_cons.mp hmem' with heq | h'
          · apply hk
            apply keyMatch_iff.mpr
            have h1 : r.name = n := (Prod.mk.injEq _ _ _ _ ▸ heq.symm).1
            have h2 : r.year = y := (Prod.mk.injEq _ _ _ _ ▸ heq.symm).2
            exact ⟨h1, h2⟩
          · exact hns h'

/-- A keyed `find?` over the fully processed assessment table agrees
with the same `find?` over the merely prepared (year-filtered, cleaned)
table, provided the sought name is not the sentinel: deduplication keeps
first occurrences and the sentinel filter only removes sentinel rows. -/
theorem find?_processAssess (assess : List AssessRow) (n : String) (y : Int)
    (hn : n ≠ EXCLUDE_NAME) :
    (processAssess assess).find? (keyMatch n y) =
      (assessPrepared assess).find? (keyMatch n y) := by
  unfold processAssess
  rw [find?_filter_pred]
  · exact find?_dedupAssess n y (assessPrepared assess) [] (by simp)
  · intro a ha
    rcases keyMatch_iff.mp ha with ⟨h1, -⟩
    simp [h1, hn]

/-- Every processed ward row carries one of the two classifier labels. -/
theorem processWard_area {ward : List WardRow} {w : WardRowC}
    (hw : w ∈ processWard ward) :
    w.area_type = "Inner-City" ∨ w.area_type = "Suburban" := by
  unfold processWard at hw
  have hw' := List.mem_of_mem_filter hw
  rcases List.mem_map.mp hw' with ⟨w0, -, rfl⟩
  exact mapInnerCity_mem _

/-- Every processed census row avoids the sentinel name. -/
theorem processCensus_name {census : List CensusRow} {c : CensusRowC}
    (hc : c ∈ processCensus census) : c.name ≠ EXCLUDE_NAME := by
  unfold processCensus at hc
  have := List.of_mem_filter hc
  simpa using this

/-- The output key column of a successful run is a permutation of the
processed census key column: the two left joins produce exactly one row
per census row and the final sort only reorders. -/
theorem out_keys_perm {census : List CensusRow} {assess : List AssessRow}
    {ward : List WardRow} {out : List OutRow}
    (h : load_and_prepare_data census assess ward = some out) :
    (out.map (fun r => (r.name, r.year))).Perm
      ((processCensus census).map (fun c => (c.name, c.year))) := by
  simp only [load_and_prepare_data] at h
  split at h
  · split at h
    · cases hca : coerceAll (mergeRows (processCensus census) (processWard ward)
          (processAssess assess)) with
      | none => rw [hca] at h; exact Option.noConfusion h
      | some rows =>
          rw [hca] at h
          injection h with h'
          subst h'
          have p1 : (sortRows (rows.map deriveMetrics)).Perm (rows.map deriveMetrics) :=
            List.perm_insertionSort rowLE _
          have p2 := p1.map (fun r => (r.name, r.year))
          have e1 : (rows.map deriveMetrics).map (fun r => (r.name, r.year)) =
              rows.map (fun c => (c.name, c.year)) := by
            rw [List.map_map]
            rfl
          rw [e1, coerceAll_keys hca, mergeRows_keys] at p2
          exact p2
    · exact Option.noConfusion h
  · exact Option.noConfusion h

/-! Claim theorems. -/

/-- C5 counterexample: "Downtown Core" contains "DOWNTOWN" as a
substring of its upper-cased, trimmed form, yet policy A classifies it
"Suburban": the five inner-city phrases are matched exactly, never as
substrings, so the claim fails as stated. -/
theorem c5_counterexample :
    strContains (pyStrip (pyUpper "Downtown Core")) "DOWNTOWN" = true ∧
      map_inner_city (PyVal.pstr "Downtown Core") = "Suburban" := by
  decide

/-- C5 (amended): for every text input whose upper-cased, trimmed form
is exactly one of "INNER CITY", "CENTRE CITY", "CENTER CITY",
"DOWNTOWN", "INNER-CITY", policy A returns "Inner-City"; mere substring
occurrence of those phrases is not sufficient. -/
theorem c5_exact_match (s : String)
    (h : pyStrip (pyUpper s) ∈ innerCityStructures) :
    map_inner_city (PyVal.pstr s) = "Inner-City" := by
  have hb : innerCityStructures.contains (pyStrip (pyUpper s)) = true := by
    simpa using h
  simp only [map_inner_city]
  rw [if_pos hb]

/-- C5 witness: the exact phrase, in mixed case with surrounding
whitespace, is classified "Inner-City". -/
theorem c5_witness : map_inner_city (PyVal.pstr "  inner city  ") = "Inner-City" :=
  c5_exact_match "  inner city  " (by decide)

/-- C6: policy A is total over the modelled Python values: the result is
always one of "Inner-City" and "Suburban" (never null, never an
exception); every non-string value yields "Suburban"; and every string
whose normalized form neither equals an inner-city structure label nor
contains an inner-city decade token yields "Suburban". -/
theorem c6_total (v : PyVal) :
    (map_inner_city v = "Inner-City" ∨ map_inner_city v = "Suburban") ∧
    ((∀ s, v ≠ PyVal.pstr s) → map_inner_city v = "Suburban") ∧
    (∀ s, v = PyVal.pstr s →
      pyStrip (pyUpper s) ∉ innerCityStructures →
      (∀ d ∈ innerCityDecades, strContains (pyStrip (pyUpper s)) d = false) →
      map_inner_city v = "Suburban") := by
  refine ⟨mapInnerCity_mem v, ?_, ?_⟩
  · intro hns
    cases v with
    | pstr s => exact absurd rfl (hns s)
    | pnan => rfl
    | pint n => rfl
    | pnone => rfl
  · intro s hv h1 h2
    subst hv
    have hb : innerCityStructures.contains (pyStrip (pyUpper s)) = false := by
      simpa using h1
    have hd : innerCityDecades.any
        (fun d => strContains (pyStrip (pyUpper s)) d) = false := by
      simp only [List.any_eq_false]
      intro d hdmem
      simp [h2 d hdmem]
    simp only [map_inner_city]
    rw [if_neg (by rw [hb]; simp), if_neg (by rw [hd]; simp)]
    split
    · rfl
    · rfl

/-- C6 witness: an unrecognized community-structure string is classified
"Suburban". -/
theorem c6_witness : map_inner_city (PyVal.pstr "Lakeshore Estates") = "Suburban" :=
  (c6_total (PyVal.pstr "Lakeshore Estates")).2.2 "Lakeshore Estates" rfl
    (by decide) (by decide)

/-- C1 counterexample: on a run whose census input repeats a
(community, year) key, the merged output has two records but only one
distinct key; the code never deduplicates census rows, so "output
records = distinct keys" fails for this run. -/
theorem c1_counterexample :
    (load_and_prepare_data dupCensus [] []).map
        (fun l => (l.length, (l.map (fun r => (r.name, r.year))).dedup.length)) =
      some (2, 1) := by
  decide

/-- C1 (amended): whenever the processed census rows have
pairwise-distinct normalized (community_name, year) keys, the number of
output records equals the number of distinct (community_name, year)
keys among them; the pipeline deduplicates assessment rows on that key
but never census rows, so duplicate census keys survive the merge. -/
theorem c1_unique_keys (census : List CensusRow) (assess : List AssessRow)
    (ward : List WardRow) (out : List OutRow)
    (h : load_and_prepare_data census assess ward = some out)
    (hnd : ((processCensus census).map (fun c => (c.name, c.year))).Nodup) :
    out.length = (out.map (fun r => (r.name, r.year))).dedup.length := by
  have hperm := out_keys_perm h
  have hnd' : (out.map (fun r => (r.name, r.year))).Nodup :=
    hperm.nodup_iff.mpr hnd
  rw [List.dedup_eq_self.mpr hnd', List.length_map]

/-- C1 witness: a run on a one-row census table with distinct keys. -/
theorem c1_witness :
    oneOut.length = (oneOut.map (fun r => (r.name, r.year))).dedup.length :=
  c1_unique_keys oneCensus [] [] oneOut (by decide) (by decide)

/-- C2 counterexample: a census community with no ward match ends with a
null AREA_TYPE in the merged output, refuting "no record ends with a
null area_type". -/
theorem c2_counterexample :
    (load_and_prepare_data orphanCensus [] []).map
        (fun l => l.map (fun r => r.area_type)) = some [none] := by
  decide

/-- C2 (amended): every output record's area_type is "Inner-City" or
"Suburban" — in particular "Suburban" when the source structure value is
missing, unrecognized or non-textual — except that a record whose
community matches no ward row carries a null area_type from the left
join. -/
theorem c2_area_type (census : List CensusRow) (assess : List AssessRow)
    (ward : List WardRow) (out : List OutRow) (r : OutRow)
    (h : load_and_prepare_data census assess ward = some out) (hr : r ∈ out) :
    r.area_type = some "Inner-City" ∨ r.area_type = some "Suburban" ∨
      (r.area_type = none ∧ (processWard ward).find? (nameMatch r.name) = none) := by
  rcases out_mem_spec h hr with ⟨c, hc, cr, hcr, rfl⟩
  rcases coerceRow_spec hcr with ⟨hn, -, hat, -⟩
  have hname : (deriveMetrics cr).name = c.name := hn
  have harea : (deriveMetrics cr).area_type =
      ((processWard ward).find? (nameMatch c.name)).map (fun w => w.area_type) := by
    rw [show (deriveMetrics cr).area_type = cr.area_type from rfl, hat]
    rfl
  rw [harea, hname]
  cases how : (processWard ward).find? (nameMatch c.name) with
  | none =>
      right; right
      exact ⟨rfl, rfl⟩
  | some w =>
      rcases processWard_area (List.mem_of_find?_eq_some how) with h1 | h1
      · left
        simp [h1]
      · right; left
        simp [h1]

/-- C2 witness: applied to the concrete orphan-community run, whose one
record has a null area_type and no ward match. -/
theorem c2_witness :
    (oneOutRow).area_type = some "Inner-City" ∨
      (oneOutRow).area_type = some "Suburban" ∨
      ((oneOutRow).area_type = none ∧
        (processWard []).find? (nameMatch (oneOutRow).name) = none) :=
  c2_area_type oneCensus [] [] oneOut (oneOutRow) (by decide) (by decide)

/-- C3 counterexample: a merged record whose assessment source value is
absent gets median_assessment 0 (and assessment_per_person 0), not null:
`astype(str)` turns the missing value into "nan", `astype(float)` into
`NaN`, and `fillna(0)` into 0. -/
theorem c3_counterexample :
    (load_and_prepare_data orphanCensus [] []).map
        (fun l => l.map (fun r => (r.median_assessment, r.assessment_per_person))) =
      some [(0, some 0)] := by
  decide

/-- C3 (amended): a missing assessment does not propagate as null: for
every output record with no matching prepared assessment row, the
record's median_assessment is 0, and its assessment_per_person is 0
(not null) whenever resident_count is nonzero. -/
theorem c3_missing_assessment (census : List CensusRow)
    (assess : List AssessRow) (ward : List WardRow) (out : List OutRow)
    (r : OutRow)
    (h : load_and_prepare_data census assess ward = some out) (hr : r ∈ out)
    (hfind : (assessPrepared assess).find? (keyMatch r.name r.year) = none) :
    r.median_assessment = 0 ∧
      (r.res_cnt ≠ 0 → r.assessment_per_person = some 0) := by
  rcases out_mem_spec h hr with ⟨c, hc, cr, hcr, rfl⟩
  rcases coerceRow_spec hcr with ⟨hn, hy, -, hmed, -⟩
  have hn' : (deriveMetrics cr).name = c.name := hn
  have hy' : (deriveMetrics cr).year = c.year := hy
  rw [hn', hy'] at hfind
  have hpa : (processAssess assess).find? (keyMatch c.name c.year) = none := by
    rw [find?_processAssess assess c.name c.year (processCensus_name hc)]
    exact hfind
  rw [hpa] at hmed
  have hmed0 : coerceCell none = some cr.median_assessment := hmed
  have hcc : coerceCell none = some 0 := by decide
  rw [hcc] at hmed0
  injection hmed0 with hmed0'
  constructor
  · exact hmed0'.symm
  · intro hres
    have hres' : ¬ cr.res_cnt = 0 := hres
    show (if cr.res_cnt = 0 then none
        else some (pdDiv cr.median_assessment cr.res_cnt)) = some 0
    rw [if_neg hres', pdDiv_eq_div, ← hmed0', zero_div]

/-- C3 witness: applied to the concrete orphan-community run, whose one
record matches no assessment row. -/
theorem c3_witness :
    (oneOutRow).median_assessment = 0 ∧
      ((oneOutRow).res_cnt ≠ 0 → (oneOutRow).assessment_per_person = some 0) :=
  c3_missing_assessment oneCensus [] [] oneOut (oneOutRow)
    (by decide) (by decide) (by decide)

/-- C4 counterexample: an unparsable numeric cell ("abc") does not
become 0: `astype(float)` raises and the run aborts, refuting "numeric
coercion never raises". -/
theorem c4_counterexample :
    load_and_prepare_data badCensus [] [] = none := by
  decide

/-- C4 (amended): the per-cell coercion strips commas and parses a
decimal number; an absent value — and a cell that reads "nan" — becomes
0, not null; but an unparsable value raises an error instead of
becoming 0. -/
theorem c4_coercion (v : Cell) :
    (v = none → coerceCell v = some 0) ∧
    (∀ s, v = some s → pyFloat (stripCommas s) = FloatParse.nan →
      coerceCell v = some 0) ∧
    (∀ s q, v = some s → pyFloat (stripCommas s) = FloatParse.num q →
      coerceCell v = some q) ∧
    (∀ s, v = some s → pyFloat (stripCommas s) = FloatParse.err →
      coerceCell v = none) := by
  refine ⟨?_, ?_, ?_, ?_⟩
  · intro hv
    subst hv
    decide
  · intro s hv hp
    subst hv
    unfold coerceCell
    rw [show cellStr (some s) = s from rfl, hp]
  · intro s q hv hp
    subst hv
    unfold coerceCell
    rw [show cellStr (some s) = s from rfl, hp]
  · intro s hv hp
    subst hv
    unfold coerceCell
    rw [show cellStr (some s) = s from rfl, hp]

/-- C4 witness: a thousands-separated value parses after comma
stripping. -/
theorem c4_witness : coerceCell (some "1,234") = some 1234 :=
  (c4_coercion (some "1,234")).2.2.1 "1,234" 1234 rfl (by decide)

/-- C7: derived-ratio semantics on every output record of every
successful run: a zero dwellings_total gives a null vacancy_rate and a
positive one gives exactly the quotient of dwellings_vacant by
dwellings_total; a zero resident_count gives a null
assessment_per_person and a nonzero one gives exactly the quotient of
median_assessment by resident_count. -/
theorem c7_ratios (census : List CensusRow) (assess : List AssessRow)
    (ward : List WardRow) (out : List OutRow) (r : OutRow)
    (h : load_and_prepare_data census assess ward = some out) (hr : r ∈ out) :
    (r.dwellings_total = 0 → r.vacancy_rate = none) ∧
    (0 < r.dwellings_total →
      r.vacancy_rate = some (r.dwellings_vacant / r.dwellings_total)) ∧
    (r.res_cnt = 0 → r.assessment_per_person = none) ∧
    (r.res_cnt ≠ 0 →
      r.assessment_per_person = some (r.median_assessment / r.res_cnt)) := by
  rcases out_mem_spec h hr with ⟨c, hc, cr, hcr, rfl⟩
  refine ⟨?_, ?_, ?_, ?_⟩
  · intro h0
    have h0' : cr.dwellings_total = 0 := h0
    show (if cr.dwellings_total = 0 then none
        else some (pdDiv cr.dwellings_vacant cr.dwellings_total)) = none
    rw [if_pos h0']
  · intro h0
    have h0' : (0 : ℚ) < cr.dwellings_total := h0
    show (if cr.dwellings_total = 0 then none
        else some (pdDiv cr.dwellings_vacant cr.dwellings_total)) =
      some (cr.dwellings_vacant / cr.dwellings_total)
    rw [if_neg (ne_of_gt h0'), pdDiv_eq_div]
  · intro h0
    have h0' : cr.res_cnt = 0 := h0
    show (if cr.res_cnt = 0 then none
        else some (pdDiv cr.median_assessment cr.res_cnt)) = none
    rw [if_pos h0']
  · intro h0
    have h0' : ¬ cr.res_cnt = 0 := h0
    show (if cr.res_cnt = 0 then none
        else some (pdDiv cr.median_assessment cr.res_cnt)) =
      some (cr.median_assessment / cr.res_cnt)
    rw [if_neg h0', pdDiv_eq_div]

/-- C7 witness: the one-row run (resident_count 4, dwellings_total 2,
dwellings_vacant 1) satisfies all four conjuncts. -/
theorem c7_witness :
    (oneOutRow.dwellings_total = 0 → oneOutRow.vacancy_rate = none) ∧
    (0 < oneOutRow.dwellings_total →
      oneOutRow.vacancy_rate =
        some (oneOutRow.dwellings_vacant / oneOutRow.dwellings_total)) ∧
    (oneOutRow.res_cnt = 0 → oneOutRow.assessment_per_person = none) ∧
    (oneOutRow.res_cnt ≠ 0 →
      oneOutRow.assessment_per_person =
        some (oneOutRow.median_assessment / oneOutRow.res_cnt)) :=
  c7_ratios oneCensus [] [] oneOut oneOutRow (by decide) (by decide)

/-- C8: first-occurrence-kept deduplication: for every output record,
if the first prepared (year-filtered, name-cleaned) assessment row with
the record's (community_name, year) key is `a`, then the record's
median_assessment is the numeric coercion of `a`'s value — later
duplicate rows never contribute. -/
theorem c8_first_occurrence (census : List CensusRow)
    (assess : List AssessRow) (ward : List WardRow) (out : List OutRow)
    (r : OutRow) (a : AssessRowC)
    (h : load_and_prepare_data census assess ward = some out) (hr : r ∈ out)
    (ha : (assessPrepared assess).find? (keyMatch r.name r.year) = some a) :
    coerceCell a.median_assessment = some r.median_assessment := by
  rcases out_mem_spec h hr with ⟨c, hc, cr, hcr, rfl⟩
  rcases coerceRow_spec hcr with ⟨hn, hy, -, hmed, -⟩
  have hn' : (deriveMetrics cr).name = c.name := hn
  have hy' : (deriveMetrics cr).year = c.year := hy
  rw [hn', hy'] at ha
  have hpa : (processAssess assess).find? (keyMatch c.name c.year) = some a := by
    rw [find?_processAssess assess c.name c.year (processCensus_name hc)]
    exact ha
  rw [hpa] at hmed
  exact hmed

/-- C8 witness: the claim's own example: two assessment rows for
("ABC", 2017) valued 500000 then 510000; the ABC/2017 output record
carries 500000 (the coercion of the first row's value). -/
theorem c8_witness :
    coerceCell (some "500000") = some (abcOut.median_assessment) :=
  c8_first_occurrence abcCensus abcAssess [] [abcOut] abcOut
    { name := "ABC", year := 2017, median_assessment := some "500000" }
    (by decide) (by decide) (by decide)

/-- C9: no output record of any successful run carries the sentinel
community name: sentinel rows are removed from all three tables before
the joins, and the joins only produce rows keyed by surviving census
names. -/
theorem c9_no_sentinel (census : List CensusRow) (assess : List AssessRow)
    (ward : List WardRow) (out : List OutRow) (r : OutRow)
    (h : load_and_prepare_data census assess ward = some out) (hr : r ∈ out) :
    r.name ≠ "SYSTEM/UNCLASSIFIED/RESIDUAL WARD" := by
  rcases out_mem_spec h hr with ⟨c, hc, cr, hcr, rfl⟩
  rcases coerceRow_spec hcr with ⟨hn, -⟩
  have hn' : (deriveMetrics cr).name = c.name := hn
  rw [hn']
  exact processCensus_name hc

/-- C9 witness: a run whose census table contains a sentinel row (in
mixed case, normalized before comparison) outputs only the real
community. -/
theorem c9_witness : sentOut.name ≠ "SYSTEM/UNCLASSIFIED/RESIDUAL WARD" :=
  c9_no_sentinel sentCensus [] [] [sentOut] sentOut (by decide) (by decide)

/-- C10: the normalizer turns a missing community name into the literal
string "NAN" (text-coercion, upper-casing, trimming), never leaving it
null: a census row with a null name and an in-range year survives
processing with the join key "NAN" (in particular the sentinel filter
keeps it, so it reaches the joins and deduplication like any real
name). -/
theorem c10_null_name (c : CensusRow) (h1 : c.community = none)
    (h2 : c.year ∈ YEARS) :
    cleanName c.community = "NAN" ∧
      (processCensus [c]).map (fun r => r.name) = ["NAN"] := by
  have hcn : cleanName c.community = "NAN" := by
    rw [h1]
    decide
  refine ⟨hcn, ?_⟩
  have hy : YEARS.contains c.year = true := by
    simpa using h2
  have hfy : List.filter (fun r => YEARS.contains r.year) [c] = [c] := by
    rw [List.filter_cons, if_pos (by rw [hy])]
    rfl
  unfold processCensus
  rw [hfy, List.map_cons, List.map_nil, List.filter_cons]
  have hname : (cleanCensusRow c).name = "NAN" := hcn
  rw [if_pos]
  · rw [List.filter_nil, List.map_cons, List.map_nil, hname]
  · rw [hname]
    decide

/-- C10 witness: a concrete census row with a missing community name. -/
theorem c10_witness :
    cleanName nullNameCensusRow.community = "NAN" ∧
      (processCensus [nullNameCensusRow]).map (fun r => r.name) = ["NAN"] :=
  c10_null_name nullNameCensusRow rfl (by decide)

end Calgary
